import Mathlib

/-!
Shallow embedding of `video_tool.py` from the `video_edit_tool` repository.

The interactive flows of the tool are modelled as pure functions: the
stream of user answers is a `List String` that the prompts consume, the
metadata probes (`get_video_info`) are passed in as `Option VideoMetadata`
values, the external video engine is represented by the parameters the
code hands to it, and the working directory is an explicit `FSState`.
Python float arithmetic on probe data is modelled exactly by `ℚ`.
-/

namespace VideoTool

/-- Python `int()` applied to an exact rational value: truncation toward
zero (`int(2.7) == 2`, `int(-2.7) == -2`). -/
def pyInt (q : ℚ) : ℤ := if 0 ≤ q then ⌊q⌋ else ⌈q⌉

/-- Python `%` on exact rationals, with the float-modulo semantics for a
nonzero divisor: `a % b == a - b * floor(a / b)` (result has the sign of
the divisor). -/
def pyMod (a b : ℚ) : ℚ := a - b * (⌊a / b⌋ : ℚ)

/-- Decimal digit run to a natural number (helper for the Python numeric
parsers below). -/
def digitsToNat (ds : List Char) : ℕ :=
  ds.foldl (fun acc c => acc * 10 + (c.toNat - Char.toNat '0')) 0

/-- Leading and trailing whitespace removal, as `int()`/`float()` apply
to their string argument. -/
def pyStrip (s : String) : List Char :=
  ((s.toList.dropWhile (fun c => c.isWhitespace)).reverse.dropWhile
    (fun c => c.isWhitespace)).reverse

/-- Python `int(s)` for decimal strings: optional surrounding whitespace,
optional sign, then one or more digits.  `none` models the `ValueError`
raised on any other input. -/
def pyParseInt (s : String) : Option ℤ :=
  let cs := pyStrip s
  let sd : ℤ × List Char :=
    match cs with
    | '-' :: rest => (-1, rest)
    | '+' :: rest => (1, rest)
    | rest => (1, rest)
  if sd.2 ≠ [] ∧ sd.2.all (fun c => c.isDigit) then
    some (sd.1 * (digitsToNat sd.2 : ℤ))
  else none

/-- Split a character list at every occurrence of `sep`, like Python
`str.split(sep)` (`"a:b"` ↦ `["a", "b"]`, `""` ↦ `[""]`). -/
def splitOnChar (sep : Char) : List Char → List (List Char)
  | [] => [[]]
  | c :: rest =>
    if c = sep then [] :: splitOnChar sep rest
    else
      match splitOnChar sep rest with
      | [] => [[c]]
      | g :: gs => (c :: g) :: gs

/-- Python `float(s)` for plain decimal literals: optional whitespace and
sign, digit runs around at most one point, at least one digit in total.
(Exponents and `inf`/`nan` spellings are not modelled.)  The value is the
exact rational the literal denotes; `none` models `ValueError`. -/
def pyParseFloat (s : String) : Option ℚ :=
  let cs := pyStrip s
  let sd : ℚ × List Char :=
    match cs with
    | '-' :: rest => (-1, rest)
    | '+' :: rest => (1, rest)
    | rest => (1, rest)
  match splitOnChar '.' sd.2 with
  | [ip] =>
    if ip ≠ [] ∧ ip.all (fun c => c.isDigit) then
      some (sd.1 * (digitsToNat ip : ℚ))
    else none
  | [ip, fp] =>
    if (ip ≠ [] ∨ fp ≠ []) ∧ ip.all (fun c => c.isDigit) ∧
        fp.all (fun c => c.isDigit) then
      some (sd.1 * ((digitsToNat ip : ℚ) +
        (digitsToNat fp : ℚ) / (10 : ℚ) ^ fp.length))
    else none
  | _ => none

/-- Index of the last `'.'` in a character list, if any. -/
def lastDotIdx (cs : List Char) : Option ℕ :=
  ((List.range cs.length).filter (fun i => cs.getD i ' ' == '.')).getLast?

/-- `os.path.splitext` on a bare file name (the tool only applies it to
names from the working-directory listing): split at the rightmost `'.'`,
unless every character before it is itself a `'.'` — leading dots never
start an extension (CPython `genericpath._splitext`). -/
def splitext (s : String) : String × String :=
  match lastDotIdx s.toList with
  | none => (s, "")
  | some i =>
    if (s.toList.take i).all (fun c => c == '.') then (s, "")
    else (String.mk (s.toList.take i), String.mk (s.toList.drop i))

/-- video_tool.py line 71: the recognised video extensions. -/
def video_extensions : List String :=
  [".mp4", ".avi", ".mov", ".wmv", ".mkv", ".flv", ".m4v"]

/-- `file.lower().endswith(ext)` — ASCII case folding plus a suffix test,
computed on character lists. -/
def pyLowerEndsWith (file ext : String) : Bool :=
  ext.toList.isSuffixOf (file.toList.map Char.toLower)

/-- video_tool.py lines 69–101, `list_video_files`: keep exactly the
directory entries whose lowered name ends in a recognised extension, in
enumeration order.  (The function additionally prints a table and reads
file sizes; it performs no writes.) -/
def list_video_files (dirListing : List String) : List String :=
  dirListing.filter
    (fun file => video_extensions.any (fun ext => pyLowerEndsWith file ext))

/-- Probe result of `get_video_info` (lines 103–121). -/
structure VideoMetadata where
  width : ℤ
  height : ℤ
  duration : ℚ
  deriving DecidableEq

/-- Files and directories of the current working directory. -/
structure FSState where
  files : List String
  dirs : List String
  deriving DecidableEq

/-- `rich` `Prompt.ask`/`IntPrompt.ask` with a `choices` list: an answer
outside `choices` is rejected and the user re-prompted, so invalid
answers are consumed and discarded until an accepted one arrives
(`none` when the input stream runs out). -/
def promptChoices (choices : List String) : List String → Option (String × List String)
  | [] => none
  | i :: rest =>
    if choices.contains i then some (i, rest) else promptChoices choices rest

/-- The choices list `[str(i) for i in range(1, n + 1)]` used for file
selection in the resize and split flows (lines 140 and 248). -/
def selectionChoices (n : ℕ) : List String :=
  (List.range n).map (fun i => toString (i + 1))

/-- Index derived from an accepted numeric choice (`IntPrompt.ask(...) - 1`);
the `choices` list guarantees the accepted answer is numeric. -/
def selectedIndex (sel : String) : ℤ := (pyParseInt sel).getD 0 - 1

/-- video_tool.py line 485: the main-menu prompt accepts only "1"–"5". -/
def mainMenuChoices : List String := ["1", "2", "3", "4", "5"]

/-- One main-menu selection (line 485): invalid answers are re-prompted
by the choices mechanism; no file is touched before dispatch. -/
def mainMenuSelect (inputs : List String) : Option (String × List String) :=
  promptChoices mainMenuChoices inputs

/-- video_tool.py lines 362–369: crop presets, key ↦ (ratio, platform). -/
def crop_options : String → Option (String × String)
  | "1" => some ("1080:1920", "TikTok/Instagram Stories (9:16)")
  | "2" => some ("1080:1080", "Instagram Post (1:1)")
  | "3" => some ("1200:630", "Facebook Post (1.91:1)")
  | "4" => some ("1080:608", "YouTube Thumbnail (16:9)")
  | "5" => some ("1080:1350", "Instagram Feed (4:5)")
  | _ => none

/-- `width, height = ratio.split(':')` followed by `int()` on both parts
(lines 396–397); `none` models the `ValueError` of a failed unpacking or
parse. -/
def parsePresetDims (ratio : String) : Option (ℤ × ℤ) :=
  match splitOnChar ':' ratio.toList with
  | [ws, hs] =>
    match pyParseInt (String.mk ws), pyParseInt (String.mk hs) with
    | some w, some h => some (w, h)
    | _, _ => none
  | _ => none

/-- video_tool.py lines 405–415: when the preset crop exceeds the probed
input in either dimension, scale both target dimensions down by the
smaller of the two fit ratios and truncate with `int()`. -/
def resolvePresetCrop (width height input_width input_height : ℤ) : ℤ × ℤ :=
  if width > input_width ∨ height > input_height then
    let scale_w : ℚ := (input_width : ℚ) / (width : ℚ)
    let scale_h : ℚ := (input_height : ℚ) / (height : ℚ)
    let scale : ℚ := min scale_w scale_h
    (pyInt ((width : ℚ) * scale), pyInt ((height : ℚ) * scale))
  else (width, height)

/-- video_tool.py lines 423–435: the per-preset file-name slug. -/
def clean_platform_of (crop_choice : String) : String :=
  if crop_choice = "1" then "tiktok_stories_9x16"
  else if crop_choice = "2" then "instagram_post_1x1"
  else if crop_choice = "3" then "facebook_post_1_91x1"
  else if crop_choice = "4" then "youtube_thumbnail_16x9"
  else if crop_choice = "5" then "instagram_feed_4x5"
  else "custom"

/-- ffmpeg filter-argument expressions, as passed in the crop call of
line 455: offset formulas over the input frame size. -/
inductive FFExpr where
  | const (n : ℤ)
  | iw
  | ih
  | sub (a b : FFExpr)
  | div (a b : FFExpr)
  deriving DecidableEq

/-- Evaluation of an ffmpeg expression against the probed input size. -/
def FFExpr.eval (sw sh : ℤ) : FFExpr → ℚ
  | .const n => (n : ℚ)
  | .iw => (sw : ℚ)
  | .ih => (sh : ℚ)
  | .sub a b => a.eval sw sh - b.eval sw sh
  | .div a b => a.eval sw sh / b.eval sw sh

/-- The x-offset string `(iw-{width})/2` of line 455. -/
def crop_offset_x_expr (width : ℤ) : FFExpr :=
  .div (.sub .iw (.const width)) (.const 2)

/-- The y-offset string `(ih-{height})/2` of line 455. -/
def crop_offset_y_expr (height : ℤ) : FFExpr :=
  .div (.sub .ih (.const height)) (.const 2)

/-- Observable result of one run of `crop_video` (lines 329–475). -/
inductive CropOutcome where
  | noFiles
  | outOfInput
  | valueError
  | invalidSelection
  | probeFailed
  | invalidOption
  | engineCall (input_file output_file : String) (width height : ℤ) (ox oy : FFExpr)
  deriving DecidableEq

/-- Lines 420–459: output name `{name}_cropped_{clean_platform}{ext}` and
the ffmpeg crop invocation with centred offset expressions. -/
def mkCropCall (input_file crop_choice : String) (width height : ℤ) : CropOutcome :=
  let se := splitext input_file
  CropOutcome.engineCall input_file
    (se.1 ++ "_cropped_" ++ clean_platform_of crop_choice ++ se.2)
    width height (crop_offset_x_expr width) (crop_offset_y_expr height)

/-- video_tool.py `crop_video` (lines 329–475).  `inputs` is the stream of
user answers; `info` and `video_info` model the results of the two
`get_video_info` probes (lines 355 and 400).  The file-selection prompt
(line 346) has no `choices` restriction: the raw answer goes through
`int()` and a manual range check. -/
def cropFlow (dirListing : List String) (inputs : List String)
    (info video_info : Option VideoMetadata) : CropOutcome :=
  let video_files := list_video_files dirListing
  if video_files.isEmpty then .noFiles
  else
    match inputs with
    | [] => .outOfInput
    | sel :: inputs1 =>
      match pyParseInt sel with
      | none => .valueError
      | some n =>
        if n - 1 < 0 ∨ n - 1 ≥ (video_files.length : ℤ) then .invalidSelection
        else
          match video_files.get? (n - 1).toNat with
          | none => .outOfInput
          | some input_file =>
            match info with
            | none => .probeFailed
            | some _ =>
              match promptChoices ["1", "2", "3", "4", "5", "6"] inputs1 with
              | none => .outOfInput
              | some (crop_choice, inputs2) =>
                if crop_choice = "6" then
                  match inputs2 with
                  | [] => .outOfInput
                  | wIn :: inputs3 =>
                    match pyParseInt wIn with
                    | none => .valueError
                    | some width =>
                      match inputs3 with
                      | [] => .outOfInput
                      | hIn :: _ =>
                        match pyParseInt hIn with
                        | none => .valueError
                        | some height =>
                          mkCropCall input_file crop_choice width height
                else
                  match crop_options crop_choice with
                  | none => .invalidOption
                  | some rp =>
                    match parsePresetDims rp.1 with
                    | none => .valueError
                    | some wh =>
                      match video_info with
                      | none => mkCropCall input_file crop_choice wh.1 wh.2
                      | some vi =>
                        let resolved := resolvePresetCrop wh.1 wh.2 vi.width vi.height
                        mkCropCall input_file crop_choice resolved.1 resolved.2

/-- Filesystem effect of a crop outcome: only a successful engine run
writes anything, namely the single output file. -/
def applyCropOutcome (fs : FSState) (engineOk : Bool) : CropOutcome → FSState
  | .engineCall _ output_file _ _ _ _ =>
    if engineOk then { fs with files := fs.files ++ [output_file] } else fs
  | _ => fs

/-- video_tool.py lines 153–159: resize presets. -/
def resize_options : String → Option (String × String)
  | "1" => some ("1920x1080", "Full HD")
  | "2" => some ("1280x720", "HD")
  | "3" => some ("854x480", "SD")
  | "4" => some ("640x360", "Low")
  | "5" => some ("custom", "Custom Size")
  | _ => none

/-- Python `str.replace` for a single-character pattern and replacement
(the tool only replaces `'x'` by `'_'`, line 192). -/
def pyReplaceChar (s : String) (pat repl : Char) : String :=
  String.mk (s.toList.map (fun c => if c = pat then repl else c))

/-- Observable result of one run of `resize_video` (lines 123–229).  The
body contains no `int()`/`float()` conversion, so no branch raises
`ValueError`: the custom width/height answers of lines 181–182 are used
as raw strings. -/
inductive ResizeOutcome where
  | noFiles
  | outOfInput
  | probeFailed
  | invalidOption
  | engineCall (input_file output_file target_resolution : String)
  deriving DecidableEq

/-- Lines 190–213: output name `{name}_resized_{W}_{H}{ext}` and the
ffmpeg scale invocation with the target-resolution string. -/
def mkResizeCall (input_file target_resolution : String) : ResizeOutcome :=
  let se := splitext input_file
  ResizeOutcome.engineCall input_file
    (se.1 ++ "_resized_" ++ pyReplaceChar target_resolution 'x' '_' ++ se.2)
    target_resolution

/-- video_tool.py `resize_video` (lines 123–229). -/
def resizeFlow (dirListing : List String) (inputs : List String)
    (info : Option VideoMetadata) : ResizeOutcome :=
  let video_files := list_video_files dirListing
  if video_files.isEmpty then .noFiles
  else
    match promptChoices (selectionChoices video_files.length) inputs with
    | none => .outOfInput
    | some (sel, inputs1) =>
      match video_files.get? (selectedIndex sel).toNat with
      | none => .outOfInput
      | some input_file =>
        match info with
        | none => .probeFailed
        | some _ =>
          match promptChoices ["1", "2", "3", "4", "5"] inputs1 with
          | none => .outOfInput
          | some (resize_choice, inputs2) =>
            if resize_choice = "5" then
              match inputs2 with
              | w :: h :: _ => mkResizeCall input_file (w ++ "x" ++ h)
              | _ => .outOfInput
            else
              match resize_options resize_choice with
              | some rn => mkResizeCall input_file rn.1
              | none => .invalidOption

/-- video_tool.py line 282: the fixed segment durations. -/
def duration_map : String → Option ℚ
  | "1" => some 10
  | "2" => some 30
  | "3" => some 60
  | "4" => some 120
  | _ => none

/-- video_tool.py lines 300–301: expected segment count,
`int(duration / seg) + (1 if duration % seg > 0 else 0)`. -/
def expected_segments (duration segment_duration : ℚ) : ℤ :=
  pyInt (duration / segment_duration) +
    (if pyMod duration segment_duration > 0 then 1 else 0)

/-- Modelled from the spec: `split_video_ffmpeg_python` (imported at line
316 from a `split_video` module that is not among the sources of
this repository) is the segment operation of the Video Engine Adapter,
`segment(path, outputPrefix, segmentDurationSeconds)`; per the spec it
writes its segment files under the given output path prefix.  The
`suffixes` parameter stands for the engine-chosen per-segment name
tails. -/
def segmentEngineOutputs (outputPfx : String) (suffixes : List String) : List String :=
  suffixes.map (fun s => outputPfx ++ s)

/-- Observable result of one run of `split_video` (lines 231–327). -/
inductive SplitOutcome where
  | noFiles
  | outOfInput
  | valueError
  | probeFailed
  | invalidOption
  | done (input_file segments_dir outputPfx : String) (expected : ℤ) (engineOk : Bool)
  deriving DecidableEq

/-- Lines 292–318: create `segments/` if absent, build the output path
prefix `segments/{stem}_segment`, compute the expected count, then run
the segment engine (`engineOk = false` models the engine raising; the
exception is caught and reported at line 322). -/
def runSplit (fs : FSState) (input_file : String) (m : VideoMetadata)
    (segment_duration : ℚ) (engineOk : Bool) (engineSuffixes : List String) :
    SplitOutcome × FSState :=
  let segments_dir := "segments"
  let fs1 :=
    if fs.dirs.contains segments_dir then fs
    else { fs with dirs := fs.dirs ++ [segments_dir] }
  let name := (splitext input_file).1
  let outputPfx := segments_dir ++ "/" ++ name ++ "_segment"
  let expected := expected_segments m.duration segment_duration
  let fs2 :=
    if engineOk then
      { fs1 with files := fs1.files ++ segmentEngineOutputs outputPfx engineSuffixes }
    else fs1
  (SplitOutcome.done input_file segments_dir outputPfx expected engineOk, fs2)

/-- video_tool.py `split_video` (lines 231–327).  The working directory
is threaded through explicitly because the flow creates `segments/`
before invoking the engine. -/
def splitFlow (fs : FSState) (inputs : List String) (info : Option VideoMetadata)
    (engineOk : Bool) (engineSuffixes : List String) : SplitOutcome × FSState :=
  let video_files := list_video_files fs.files
  if video_files.isEmpty then (.noFiles, fs)
  else
    match promptChoices (selectionChoices video_files.length) inputs with
    | none => (.outOfInput, fs)
    | some (sel, inputs1) =>
      match video_files.get? (selectedIndex sel).toNat with
      | none => (.outOfInput, fs)
      | some input_file =>
        match info with
        | none => (.probeFailed, fs)
        | some m =>
          match promptChoices ["1", "2", "3", "4", "5"] inputs1 with
          | none => (.outOfInput, fs)
          | some (duration_choice, inputs2) =>
            match duration_map duration_choice with
            | some segment_duration =>
              runSplit fs input_file m segment_duration engineOk engineSuffixes
            | none =>
              if duration_choice = "5" then
                match inputs2 with
                | [] => (.outOfInput, fs)
                | dIn :: _ =>
                  match pyParseFloat dIn with
                  | none => (.valueError, fs)
                  | some segment_duration =>
                    runSplit fs input_file m segment_duration engineOk engineSuffixes
              else (.invalidOption, fs)


/-! Helper lemmas shared by the verification theorems below. -/

theorem pyInt_eq_floor (q : ℚ) (h : 0 ≤ q) : pyInt q = ⌊q⌋ := by
  simp [pyInt, h]

theorem pyInt_mul_scale_le (t i : ℤ) (s : ℚ) (ht : 0 < t)
    (hs0 : 0 ≤ s) (hs : s ≤ (i : ℚ) / (t : ℚ)) : pyInt ((t : ℚ) * s) ≤ i := by
  have htQ : (0 : ℚ) < (t : ℚ) := by exact_mod_cast ht
  have h1 : (t : ℚ) * s ≤ (t : ℚ) * ((i : ℚ) / (t : ℚ)) :=
    mul_le_mul_of_nonneg_left hs htQ.le
  have h2 : (t : ℚ) * ((i : ℚ) / (t : ℚ)) = (i : ℚ) :=
    mul_div_cancel₀ _ (ne_of_gt htQ)
  have h3 : (t : ℚ) * s ≤ (i : ℚ) := h2 ▸ h1
  have h4 : 0 ≤ (t : ℚ) * s := mul_nonneg htQ.le hs0
  rw [pyInt_eq_floor _ h4]
  calc ⌊(t : ℚ) * s⌋ ≤ ⌊(i : ℚ)⌋ := Int.floor_le_floor h3
    _ = i := Int.floor_intCast i

theorem scale_nonneg (iw ih tw th : ℤ) (hiw : 0 < iw) (hih : 0 < ih)
    (htw : 0 < tw) (hth : 0 < th) :
    0 ≤ min ((iw : ℚ) / (tw : ℚ)) ((ih : ℚ) / (th : ℚ)) := by
  have h1 : (0 : ℚ) ≤ (iw : ℚ) / (tw : ℚ) :=
    div_nonneg (by exact_mod_cast hiw.le) (by exact_mod_cast htw.le)
  have h2 : (0 : ℚ) ≤ (ih : ℚ) / (th : ℚ) :=
    div_nonneg (by exact_mod_cast hih.le) (by exact_mod_cast hth.le)
  exact le_min h1 h2

theorem resolvePresetCrop_le (tw th iw ih : ℤ) (htw : 0 < tw) (hth : 0 < th)
    (hiw : 0 < iw) (hih : 0 < ih) :
    (resolvePresetCrop tw th iw ih).1 ≤ iw ∧ (resolvePresetCrop tw th iw ih).2 ≤ ih := by
  by_cases hc : tw > iw ∨ th > ih
  · have hs0 := scale_nonneg iw ih tw th hiw hih htw hth
    simp only [resolvePresetCrop, if_pos hc]
    constructor
    · exact pyInt_mul_scale_le tw iw _ htw hs0 (min_le_left _ _)
    · exact pyInt_mul_scale_le th ih _ hth hs0 (min_le_right _ _)
  · push_neg at hc
    simp only [resolvePresetCrop, if_neg (by push_neg; exact hc : ¬(tw > iw ∨ th > ih))]
    exact hc

theorem ratio_bounds (tw th : ℤ) (s : ℚ) (htw : 0 < tw) (hth : 0 < th) (hs0 : 0 ≤ s) :
    pyInt ((tw : ℚ) * s) * th - pyInt ((th : ℚ) * s) * tw < tw ∧
    -th < pyInt ((tw : ℚ) * s) * th - pyInt ((th : ℚ) * s) * tw := by
  have htwQ : (0 : ℚ) < (tw : ℚ) := by exact_mod_cast htw
  have hthQ : (0 : ℚ) < (th : ℚ) := by exact_mod_cast hth
  have haw : 0 ≤ (tw : ℚ) * s := mul_nonneg htwQ.le hs0
  have hah : 0 ≤ (th : ℚ) * s := mul_nonneg hthQ.le hs0
  rw [pyInt_eq_floor _ haw, pyInt_eq_floor _ hah]
  have h1 : ((⌊(tw : ℚ) * s⌋ : ℚ)) ≤ (tw : ℚ) * s := Int.floor_le _
  have h2 : (tw : ℚ) * s - 1 < (⌊(tw : ℚ) * s⌋ : ℚ) := Int.sub_one_lt_floor _
  have h3 : ((⌊(th : ℚ) * s⌋ : ℚ)) ≤ (th : ℚ) * s := Int.floor_le _
  have h4 : (th : ℚ) * s - 1 < (⌊(th : ℚ) * s⌋ : ℚ) := Int.sub_one_lt_floor _
  constructor
  · have hq : ((⌊(tw : ℚ) * s⌋ : ℚ)) * th - (⌊(th : ℚ) * s⌋ : ℚ) * tw < tw := by
      nlinarith [mul_le_mul_of_nonneg_right h1 hthQ.le,
        mul_lt_mul_of_pos_right h4 htwQ]
    exact_mod_cast hq
  · have hq : -(th : ℚ) < ((⌊(tw : ℚ) * s⌋ : ℚ)) * th - (⌊(th : ℚ) * s⌋ : ℚ) * tw := by
      nlinarith [mul_le_mul_of_nonneg_right h3 htwQ.le,
        mul_lt_mul_of_pos_right h2 hthQ]
    exact_mod_cast hq

theorem runSplit_spec (fs : FSState) (input_file : String) (m : VideoMetadata)
    (sdur : ℚ) (eok : Bool) (sfx : List String)
    (f sd op : String) (k : ℤ) (eok' : Bool) (fs' : FSState)
    (h : runSplit fs input_file m sdur eok sfx = (.done f sd op k eok', fs')) :
    f = input_file ∧ sd = "segments" ∧
    op = "segments" ++ "/" ++ (splitext f).1 ++ "_segment" ∧
    "segments" ∈ fs'.dirs ∧
    (∀ g ∈ fs'.files, g ∈ fs.files ∨ ∃ tail, g = op ++ tail) ∧
    (eok' = false → fs'.files = fs.files) := by
  simp only [runSplit] at h
  by_cases hc : fs.dirs.contains "segments"
  · rw [if_pos hc] at h
    by_cases he : eok = true
    · rw [if_pos he] at h
      simp only [Prod.mk.injEq, SplitOutcome.done.injEq] at h
      obtain ⟨⟨hf, hsd, hop, hk, heok⟩, hfs⟩ := h
      subst hf hsd hop hfs
      refine ⟨rfl, rfl, rfl, by simpa using hc, ?_, ?_⟩
      · intro g hg
        simp only [segmentEngineOutputs, List.mem_append, List.mem_map] at hg
        rcases hg with hg | ⟨a, _, rfl⟩
        · exact Or.inl hg
        · exact Or.inr ⟨a, rfl⟩
      · intro hfalse
        rw [← heok] at hfalse
        simp [he] at hfalse
    · rw [if_neg he] at h
      simp only [Prod.mk.injEq, SplitOutcome.done.injEq] at h
      obtain ⟨⟨hf, hsd, hop, hk, heok⟩, hfs⟩ := h
      subst hf hsd hop hfs
      refine ⟨rfl, rfl, rfl, by simpa using hc, ?_, fun _ => rfl⟩
      intro g hg
      exact Or.inl hg
  · rw [if_neg hc] at h
    by_cases he : eok = true
    · rw [if_pos he] at h
      simp only [Prod.mk.injEq, SplitOutcome.done.injEq] at h
      obtain ⟨⟨hf, hsd, hop, hk, heok⟩, hfs⟩ := h
      subst hf hsd hop hfs
      refine ⟨rfl, rfl, rfl, by simp, ?_, ?_⟩
      · intro g hg
        simp only [segmentEngineOutputs, List.mem_append, List.mem_map] at hg
        rcases hg with hg | ⟨a, _, rfl⟩
        · exact Or.inl hg
        · exact Or.inr ⟨a, rfl⟩
      · intro hfalse
        rw [← heok] at hfalse
        simp [he] at hfalse
    · rw [if_neg he] at h
      simp only [Prod.mk.injEq, SplitOutcome.done.injEq] at h
      obtain ⟨⟨hf, hsd, hop, hk, heok⟩, hfs⟩ := h
      subst hf hsd hop hfs
      refine ⟨rfl, rfl, rfl, by simp, ?_, fun _ => rfl⟩
      intro g hg
      exact Or.inl hg

theorem splitFlow_done (fs : FSState) (inputs : List String) (info : Option VideoMetadata)
    (eok : Bool) (sfx : List String)
    (f sd op : String) (k : ℤ) (eok' : Bool) (fs' : FSState)
    (h : splitFlow fs inputs info eok sfx = (.done f sd op k eok', fs')) :
    sd = "segments" ∧
    op = "segments" ++ "/" ++ (splitext f).1 ++ "_segment" ∧
    "segments" ∈ fs'.dirs ∧
    (∀ g ∈ fs'.files, g ∈ fs.files ∨ ∃ tail, g = op ++ tail) ∧
    (eok' = false → fs'.files = fs.files) := by
  simp only [splitFlow] at h
  repeat' split at h
  all_goals first
  | simp at h
  | exact (runSplit_spec _ _ _ _ _ _ _ _ _ _ _ _ h).2

theorem promptChoices_skip (cs : List String) (s : String) (rest : List String)
    (h : cs.contains s = false) :
    promptChoices cs (s :: rest) = promptChoices cs rest := by
  simp only [promptChoices]
  rw [if_neg (by simpa using h)]

theorem cropFlow_nonnumeric_selection (dir rest : List String)
    (info vi : Option VideoMetadata) (s : String)
    (hne : list_video_files dir ≠ []) (hp : pyParseInt s = none) :
    cropFlow dir (s :: rest) info vi = .valueError := by
  have hE : (list_video_files dir).isEmpty = false := by
    simpa [List.isEmpty_iff] using hne
  simp only [cropFlow, hE, hp]
  rfl

theorem cropFlow_nonnumeric_custom (rest : List String) (m : VideoMetadata)
    (vi : Option VideoMetadata) (s : String) (hp : pyParseInt s = none) :
    cropFlow ["video.mp4"] ("1" :: "6" :: s :: rest) (some m) vi = .valueError := by
  have hl : list_video_files ["video.mp4"] = ["video.mp4"] := by decide
  have h1 : pyParseInt "1" = some 1 := by decide
  have hpc : promptChoices ["1", "2", "3", "4", "5", "6"] ("6" :: s :: rest) =
      some ("6", s :: rest) := by
    simp only [promptChoices]
    rw [if_pos (by decide)]
  simp only [cropFlow, hl, h1, hpc, hp]
  norm_num

theorem cropFlow_selection_out_of_range (rest : List String)
    (info vi : Option VideoMetadata) :
    cropFlow ["video.mp4"] ("9" :: rest) info vi = .invalidSelection := rfl

theorem splitFlow_nonnumeric_duration (fs : FSState) (f : String) (m : VideoMetadata)
    (eok : Bool) (sfx : List String) (s : String)
    (hl : list_video_files fs.files = [f]) (hp : pyParseFloat s = none) :
    splitFlow fs ["1", "5", s] (some m) eok sfx = (.valueError, fs) := by
  have hpc1 : promptChoices (selectionChoices 1) ["1", "5", s] =
      some ("1", ["5", s]) := by
    simp only [selectionChoices, promptChoices]
    rw [if_pos (by decide)]
  have hpc2 : promptChoices ["1", "2", "3", "4", "5"] ["5", s] =
      some ("5", [s]) := by
    simp only [promptChoices]
    rw [if_pos (by decide)]
  have hidx : (selectedIndex "1").toNat = 0 := by decide
  have hdm : duration_map "5" = none := rfl
  simp only [splitFlow, hl, List.length_singleton, hpc1, hidx, hpc2, hdm, hp]
  simp

theorem resizeFlow_custom_passthrough (w h : String) (m : VideoMetadata) :
    resizeFlow ["video.mp4"] ["1", "5", w, h] (some m) =
      mkResizeCall "video.mp4" (w ++ "x" ++ h) := rfl

theorem split_run_ok :
    splitFlow ⟨["video.mp4"], []⟩ ["1", "3"] (some ⟨1920, 1080, 125⟩) true ["_000.mp4"] =
      (.done "video.mp4" "segments" "segments/video_segment" 3 true,
       ⟨["video.mp4", "segments/video_segment_000.mp4"], ["segments"]⟩) := by
  have hl : list_video_files ["video.mp4"] = ["video.mp4"] := by decide
  have hpc1 : promptChoices (selectionChoices 1) ["1", "3"] = some ("1", ["3"]) := by
    simp only [selectionChoices, promptChoices]
    rw [if_pos (by decide)]
  have hget : ["video.mp4"][(selectedIndex "1").toNat]? = some "video.mp4" := by decide
  have hpc2 : promptChoices ["1", "2", "3", "4", "5"] ["3"] = some ("3", []) := by
    simp only [promptChoices]
    rw [if_pos (by decide)]
  have hdm : duration_map "3" = some 60 := rfl
  have hexp : expected_segments 125 60 = 3 := by
    norm_num [expected_segments, pyInt, pyMod]
  simp only [splitFlow, hl, List.length_singleton, hpc1, hget, hpc2, hdm, runSplit, hexp]
  decide

theorem split_run_fail :
    splitFlow ⟨["video.mp4"], []⟩ ["1", "3"] (some ⟨1920, 1080, 125⟩) false [] =
      (.done "video.mp4" "segments" "segments/video_segment" 3 false,
       ⟨["video.mp4"], ["segments"]⟩) := by
  have hl : list_video_files ["video.mp4"] = ["video.mp4"] := by decide
  have hpc1 : promptChoices (selectionChoices 1) ["1", "3"] = some ("1", ["3"]) := by
    simp only [selectionChoices, promptChoices]
    rw [if_pos (by decide)]
  have hget : ["video.mp4"][(selectedIndex "1").toNat]? = some "video.mp4" := by decide
  have hpc2 : promptChoices ["1", "2", "3", "4", "5"] ["3"] = some ("3", []) := by
    simp only [promptChoices]
    rw [if_pos (by decide)]
  have hdm : duration_map "3" = some 60 := rfl
  have hexp : expected_segments 125 60 = 3 := by
    norm_num [expected_segments, pyInt, pyMod]
  simp only [splitFlow, hl, List.length_singleton, hpc1, hget, hpc2, hdm, runSplit, hexp]
  decide


/-! Verification of the specified properties. -/

/-- Claim C1: for every preset crop whose target width exceeds the probed
source width or whose target height exceeds the probed source height, the
resolved dimensions are `int(target * scale)` for
`scale = min(source_width / target_width, source_height / target_height)`,
they fit inside the source, and the resolved pair keeps the preset ratio
within integer-truncation tolerance (cross products differ by less than
one denominator unit: `-th < rw * th - rh * tw < tw`). -/
theorem crop_preset_downscale_formula_and_bounds (tw th iw ih : ℤ)
    (htw : 0 < tw) (hth : 0 < th) (hiw : 0 < iw) (hih : 0 < ih)
    (hex : tw > iw ∨ th > ih) :
    resolvePresetCrop tw th iw ih =
      (pyInt ((tw : ℚ) * min ((iw : ℚ) / (tw : ℚ)) ((ih : ℚ) / (th : ℚ))),
       pyInt ((th : ℚ) * min ((iw : ℚ) / (tw : ℚ)) ((ih : ℚ) / (th : ℚ)))) ∧
    (resolvePresetCrop tw th iw ih).1 ≤ iw ∧
    (resolvePresetCrop tw th iw ih).2 ≤ ih ∧
    -th < (resolvePresetCrop tw th iw ih).1 * th -
      (resolvePresetCrop tw th iw ih).2 * tw ∧
    (resolvePresetCrop tw th iw ih).1 * th -
      (resolvePresetCrop tw th iw ih).2 * tw < tw := by
  have hle := resolvePresetCrop_le tw th iw ih htw hth hiw hih
  have hs0 := scale_nonneg iw ih tw th hiw hih htw hth
  have hrb := ratio_bounds tw th _ htw hth hs0
  have heq : resolvePresetCrop tw th iw ih =
      (pyInt ((tw : ℚ) * min ((iw : ℚ) / (tw : ℚ)) ((ih : ℚ) / (th : ℚ))),
       pyInt ((th : ℚ) * min ((iw : ℚ) / (tw : ℚ)) ((ih : ℚ) / (th : ℚ)))) := by
    simp only [resolvePresetCrop, if_pos hex]
  refine ⟨heq, hle.1, hle.2, ?_, ?_⟩
  · rw [heq]
    exact hrb.2
  · rw [heq]
    exact hrb.1

/-- Claim C1 witness: the TikTok preset 1080x1920 on a 1280x720 source is
down-scaled by `min(1280/1080, 720/1920) = 3/8` to 405x720, which fits. -/
theorem crop_preset_downscale_witness :
    ((0 : ℤ) < 1080 ∧ (0 : ℤ) < 1920 ∧ (0 : ℤ) < 1280 ∧ (0 : ℤ) < 720 ∧
      ((1080 : ℤ) > 1280 ∨ (1920 : ℤ) > 720)) ∧
    resolvePresetCrop 1080 1920 1280 720 = (405, 720) ∧
    (resolvePresetCrop 1080 1920 1280 720).1 ≤ 1280 ∧
    (resolvePresetCrop 1080 1920 1280 720).2 ≤ 720 := by
  have hr := crop_preset_downscale_formula_and_bounds 1080 1920 1280 720
    (by norm_num) (by norm_num) (by norm_num) (by norm_num) (Or.inr (by norm_num))
  refine ⟨⟨by norm_num, by norm_num, by norm_num, by norm_num, Or.inr (by norm_num)⟩,
    ?_, hr.2.1, hr.2.2.1⟩
  have hmin : min ((1280 : ℚ) / 1080) ((720 : ℚ) / 1920) = 3 / 8 := by
    rw [min_def]
    norm_num
  simp only [resolvePresetCrop]
  norm_num [hmin, pyInt]

/-- Claim C2 counterexample: a custom crop (choice 6) is passed to the
engine unchecked — width 4000 on a 1920x1080 source reaches the engine
even though it exceeds the source width, so the invariant does not hold
for every crop operation. -/
theorem crop_custom_dims_exceed_source_cex :
    cropFlow ["video.mp4"] ["1", "6", "4000", "4000"]
        (some ⟨1920, 1080, 10⟩) (some ⟨1920, 1080, 10⟩) =
      .engineCall "video.mp4" "video_cropped_custom.mp4" 4000 4000
        (crop_offset_x_expr 4000) (crop_offset_y_expr 4000) ∧
    (1920 : ℤ) < 4000 := by
  exact ⟨by decide, by decide⟩

/-- Claim C2 (amended): for preset crop selections — the only ones the
code resolves against the probed source metadata — the resolved crop
width and height never exceed the source width and height; custom crop
dimensions bypass this check entirely. -/
theorem crop_preset_resolved_within_source (tw th iw ih : ℤ)
    (htw : 0 < tw) (hth : 0 < th) (hiw : 0 < iw) (hih : 0 < ih) :
    (resolvePresetCrop tw th iw ih).1 ≤ iw ∧
    (resolvePresetCrop tw th iw ih).2 ≤ ih :=
  resolvePresetCrop_le tw th iw ih htw hth hiw hih

/-- Claim C2 amended witness: the Instagram Stories preset on an 800x600
source resolves within the source frame. -/
theorem crop_preset_resolved_within_source_witness :
    ((0 : ℤ) < 1080 ∧ (0 : ℤ) < 1920 ∧ (0 : ℤ) < 800 ∧ (0 : ℤ) < 600) ∧
    (resolvePresetCrop 1080 1920 800 600).1 ≤ 800 ∧
    (resolvePresetCrop 1080 1920 800 600).2 ≤ 600 :=
  ⟨⟨by norm_num, by norm_num, by norm_num, by norm_num⟩,
    crop_preset_resolved_within_source 1080 1920 800 600
      (by norm_num) (by norm_num) (by norm_num) (by norm_num)⟩

/-- Claim C3: every completed split writes its segments under the
`segments/` directory of the working directory (present in the final
state) with file-name prefix `{stem}_segment`, the stem being the input
file name without its extension.  (The segment engine itself is modelled
from the spec because the `split_video` module is not among the sources;
see `segmentEngineOutputs`.) -/
theorem split_outputs_under_segments_dir (fs : FSState) (inputs : List String)
    (info : Option VideoMetadata) (sfx : List String)
    (f sd op : String) (k : ℤ) (eok' : Bool) (fs' : FSState)
    (h : splitFlow fs inputs info true sfx = (.done f sd op k eok', fs')) :
    sd = "segments" ∧
    op = "segments" ++ "/" ++ (splitext f).1 ++ "_segment" ∧
    "segments" ∈ fs'.dirs ∧
    ∀ g ∈ fs'.files, g ∈ fs.files ∨ ∃ tail, g = op ++ tail := by
  have hr := splitFlow_done fs inputs info true sfx f sd op k eok' fs' h
  exact ⟨hr.1, hr.2.1, hr.2.2.1, hr.2.2.2.1⟩

/-- Claim C3 witness: splitting `video.mp4` into 60-second segments
creates `segments/` and every new file extends
`segments/video_segment`. -/
theorem split_outputs_under_segments_dir_witness :
    ("segments" : String) = "segments" ∧
    ("segments/video_segment" : String) =
      "segments" ++ "/" ++ (splitext "video.mp4").1 ++ "_segment" ∧
    "segments" ∈ (FSState.mk ["video.mp4", "segments/video_segment_000.mp4"]
      ["segments"]).dirs ∧
    ∀ g ∈ (FSState.mk ["video.mp4", "segments/video_segment_000.mp4"]
      ["segments"]).files,
      g ∈ (FSState.mk ["video.mp4"] []).files ∨
        ∃ tail, g = "segments/video_segment" ++ tail :=
  split_outputs_under_segments_dir ⟨["video.mp4"], []⟩ ["1", "3"]
    (some ⟨1920, 1080, 125⟩) ["_000.mp4"] "video.mp4" "segments"
    "segments/video_segment" 3 true
    ⟨["video.mp4", "segments/video_segment_000.mp4"], ["segments"]⟩ split_run_ok

/-- Claim C4 counterexample: in the resize flow the custom width/height
prompts perform no numeric conversion, so the non-numeric answers "abc"
and "def" do not abort the operation — the flow proceeds to invoke the
engine with target resolution "abcxdef" instead of returning to the
menu. -/
theorem resize_custom_nonnumeric_reaches_engine_cex :
    resizeFlow ["video.mp4"] ["1", "5", "abc", "def"] (some ⟨1920, 1080, 10⟩) =
      .engineCall "video.mp4" "video_resized_abc_def.mp4" "abcxdef" := by
  decide

/-- Claim C4 (amended): in the split and crop flows every `int()`/`float()`
prompt aborts with the value-error report on non-numeric input before any
file is modified; the resize flow is the exception — its custom
width/height answers are taken as raw strings and passed to the engine
without numeric validation. -/
theorem nonnumeric_input_aborts_split_crop_only :
    (∀ (dir rest : List String) (info vi : Option VideoMetadata) (s : String),
      list_video_files dir ≠ [] → pyParseInt s = none →
      cropFlow dir (s :: rest) info vi = .valueError) ∧
    (∀ (rest : List String) (m : VideoMetadata) (vi : Option VideoMetadata)
      (s : String), pyParseInt s = none →
      cropFlow ["video.mp4"] ("1" :: "6" :: s :: rest) (some m) vi = .valueError) ∧
    (∀ (fs : FSState) (f : String) (m : VideoMetadata) (eok : Bool)
      (sfx : List String) (s : String),
      list_video_files fs.files = [f] → pyParseFloat s = none →
      splitFlow fs ["1", "5", s] (some m) eok sfx = (.valueError, fs)) ∧
    (∀ (w h : String) (m : VideoMetadata),
      resizeFlow ["video.mp4"] ["1", "5", w, h] (some m) =
        mkResizeCall "video.mp4" (w ++ "x" ++ h)) ∧
    (∀ (fs : FSState) (eok : Bool), applyCropOutcome fs eok .valueError = fs) :=
  ⟨cropFlow_nonnumeric_selection, cropFlow_nonnumeric_custom,
    splitFlow_nonnumeric_duration, resizeFlow_custom_passthrough,
    fun _ _ => rfl⟩

/-- Claim C4 amended witness: the non-numeric answer "abc" aborts the
crop selection, the crop custom width, and the split custom duration,
leaving the file system untouched. -/
theorem nonnumeric_input_aborts_split_crop_only_witness :
    (list_video_files ["video.mp4"] ≠ [] ∧ pyParseInt "abc" = none ∧
      pyParseFloat "abc" = none) ∧
    cropFlow ["video.mp4"] ["abc"] (some ⟨1920, 1080, 10⟩) none = .valueError ∧
    cropFlow ["video.mp4"] ["1", "6", "abc"] (some ⟨1920, 1080, 10⟩) none =
      .valueError ∧
    splitFlow ⟨["video.mp4"], []⟩ ["1", "5", "abc"] (some ⟨1920, 1080, 125⟩)
      true [] = (.valueError, ⟨["video.mp4"], []⟩) :=
  ⟨⟨by decide, by decide, by decide⟩,
    nonnumeric_input_aborts_split_crop_only.1 ["video.mp4"] [] _ none "abc"
      (by decide) (by decide),
    nonnumeric_input_aborts_split_crop_only.2.1 [] ⟨1920, 1080, 10⟩ none "abc"
      (by decide),
    nonnumeric_input_aborts_split_crop_only.2.2.1 ⟨["video.mp4"], []⟩
      "video.mp4" ⟨1920, 1080, 125⟩ true [] "abc" (by decide) (by decide)⟩

/-- Claim C5: for positive total duration and positive segment duration,
the displayed expected segment count
`int(duration / seg) + (1 if duration % seg > 0 else 0)` equals
`ceil(duration / seg)`. -/
theorem expected_segments_eq_ceil (d s : ℚ) (hd : 0 < d) (hs : 0 < s) :
    expected_segments d s = ⌈d / s⌉ := by
  have hq : (0 : ℚ) ≤ d / s := (div_pos hd hs).le
  have hle : s * (⌊d / s⌋ : ℚ) ≤ d := by
    have h1 : (⌊d / s⌋ : ℚ) ≤ d / s := Int.floor_le _
    have h2 : s * (⌊d / s⌋ : ℚ) ≤ s * (d / s) := mul_le_mul_of_nonneg_left h1 hs.le
    have h3 : s * (d / s) = d := by field_simp
    linarith
  unfold expected_segments pyMod
  rw [pyInt_eq_floor _ hq]
  by_cases h : d - s * (⌊d / s⌋ : ℚ) > 0
  · rw [if_pos h]
    have hlt : (⌊d / s⌋ : ℚ) < d / s := by
      rw [lt_div_iff₀ hs]
      nlinarith
    symm
    rw [Int.ceil_eq_iff]
    constructor
    · push_cast
      linarith [Int.floor_le (d / s)]
    · push_cast
      linarith [(Int.lt_floor_add_one (d / s)).le]
  · rw [if_neg h]
    have heq : d = s * (⌊d / s⌋ : ℚ) := by
      push_neg at h
      linarith
    have hdiv : d / s = (⌊d / s⌋ : ℚ) := by
      rw [heq]
      field_simp
    rw [add_zero, hdiv, Int.ceil_intCast, Int.floor_intCast]

/-- Claim C5 witness: a 125-second video split into 60-second segments is
announced as `ceil(125 / 60) = 3` segments. -/
theorem expected_segments_eq_ceil_witness :
    ((0 : ℚ) < 125 ∧ (0 : ℚ) < 60) ∧
    expected_segments 125 60 = ⌈(125 : ℚ) / 60⌉ ∧
    expected_segments 125 60 = 3 :=
  ⟨⟨by norm_num, by norm_num⟩,
    expected_segments_eq_ceil 125 60 (by norm_num) (by norm_num),
    by norm_num [expected_segments, pyInt, pyMod]⟩

/-- Claim C6: the crop offsets handed to the engine are the centred
expressions `(iw-width)/2` and `(ih-height)/2`, which evaluate against
the source size to `(source_width - crop_width) / 2` and
`(source_height - crop_height) / 2`; for a 1920x1080 source and a
1080x1080 target the flow produces offsets evaluating to 420 and 0. -/
theorem crop_offset_centered :
    (∀ (w sw sh : ℤ),
      (crop_offset_x_expr w).eval sw sh = ((sw : ℚ) - (w : ℚ)) / 2) ∧
    (∀ (ht sw sh : ℤ),
      (crop_offset_y_expr ht).eval sw sh = ((sh : ℚ) - (ht : ℚ)) / 2) ∧
    cropFlow ["video.mp4"] ["1", "2"] (some ⟨1920, 1080, 10⟩)
        (some ⟨1920, 1080, 10⟩) =
      .engineCall "video.mp4" "video_cropped_instagram_post_1x1.mp4" 1080 1080
        (crop_offset_x_expr 1080) (crop_offset_y_expr 1080) ∧
    (crop_offset_x_expr 1080).eval 1920 1080 = 420 ∧
    (crop_offset_y_expr 1080).eval 1920 1080 = 0 := by
  refine ⟨?_, ?_, by decide, ?_, ?_⟩
  · intro w sw sh
    simp [crop_offset_x_expr, FFExpr.eval]
  · intro ht sw sh
    simp [crop_offset_y_expr, FFExpr.eval]
  · norm_num [crop_offset_x_expr, FFExpr.eval]
  · norm_num [crop_offset_y_expr, FFExpr.eval]

/-- Claim C7: file discovery filters the working-directory listing — and
nothing else — keeping, in enumeration order, exactly the entries whose
name ends case-insensitively in one of the recognised extensions; on a
directory holding `a.mp4`, `b.txt`, `c.MOV` it returns exactly
`[a.mp4, c.MOV]`. -/
theorem file_discovery_filter_spec :
    list_video_files ["a.mp4", "b.txt", "c.MOV"] = ["a.mp4", "c.MOV"] ∧
    (∀ l : List String, (list_video_files l).Sublist l) ∧
    (∀ (f : String) (l : List String),
      f ∈ list_video_files l ↔
        f ∈ l ∧ video_extensions.any (fun ext => pyLowerEndsWith f ext) = true) :=
  ⟨by decide, fun l => List.filter_sublist l, fun f l => List.mem_filter⟩

/-- Claim C8 counterexample: the crop-flow file-selection prompt does not
re-prompt on the out-of-range answer "9" — it aborts the whole flow with
an invalid-selection report, while the same remaining answers would have
completed a crop, so this selection prompt changes state instead of
re-prompting. -/
theorem crop_selection_prompt_aborts_cex :
    cropFlow ["video.mp4"] ["9", "1", "2"] (some ⟨1920, 1080, 10⟩)
        (some ⟨1920, 1080, 10⟩) = .invalidSelection ∧
    cropFlow ["video.mp4"] ["1", "2"] (some ⟨1920, 1080, 10⟩)
        (some ⟨1920, 1080, 10⟩) =
      .engineCall "video.mp4" "video_cropped_instagram_post_1x1.mp4" 1080 1080
        (crop_offset_x_expr 1080) (crop_offset_y_expr 1080) ∧
    (CropOutcome.invalidSelection ≠
      .engineCall "video.mp4" "video_cropped_instagram_post_1x1.mp4" 1080 1080
        (crop_offset_x_expr 1080) (crop_offset_y_expr 1080)) :=
  ⟨by decide, by decide, by decide⟩

/-- Claim C8 (amended): prompts constrained by a `choices` list — the
main menu among them — consume and discard an invalid answer and
re-prompt, with no state change and no file I/O; the crop-flow
file-selection prompt instead aborts to the main menu on an out-of-range
answer, likewise touching no file. -/
theorem choice_prompts_reprompt_crop_aborts :
    (∀ (cs : List String) (s : String) (rest : List String),
      cs.contains s = false →
      promptChoices cs (s :: rest) = promptChoices cs rest) ∧
    (∀ rest : List String, mainMenuSelect ("9" :: rest) = mainMenuSelect rest) ∧
    (∀ (rest : List String) (info vi : Option VideoMetadata),
      cropFlow ["video.mp4"] ("9" :: rest) info vi = .invalidSelection) ∧
    (∀ (fs : FSState) (eok : Bool),
      applyCropOutcome fs eok .invalidSelection = fs) :=
  ⟨promptChoices_skip,
    fun rest => promptChoices_skip mainMenuChoices "9" rest (by decide),
    cropFlow_selection_out_of_range,
    fun _ _ => rfl⟩

/-- Claim C8 amended witness: entering 9 at the main menu is skipped and
the next answer decides, exactly as if 9 had never been typed. -/
theorem choice_prompts_reprompt_crop_aborts_witness :
    mainMenuChoices.contains "9" = false ∧
    promptChoices mainMenuChoices ["9", "5"] = promptChoices mainMenuChoices ["5"] ∧
    applyCropOutcome ⟨["video.mp4"], []⟩ true .invalidSelection =
      ⟨["video.mp4"], []⟩ :=
  ⟨by decide,
    choice_prompts_reprompt_crop_aborts.1 mainMenuChoices "9" ["5"] (by decide),
    choice_prompts_reprompt_crop_aborts.2.2.2 ⟨["video.mp4"], []⟩ true⟩

/-- Claim C9: the `segments/` directory is created before the segment
engine is invoked, so after a split whose engine step fails the newly
created directory is still present — a failed split is not
state-preserving at the file-system level. -/
theorem segments_dir_persists_on_failed_split (fs : FSState) (inputs : List String)
    (info : Option VideoMetadata) (sfx : List String)
    (f sd op : String) (k : ℤ) (eok' : Bool) (fs' : FSState)
    (hnew : "segments" ∉ fs.dirs)
    (h : splitFlow fs inputs info false sfx = (.done f sd op k eok', fs')) :
    "segments" ∈ fs'.dirs :=
  (splitFlow_done fs inputs info false sfx f sd op k eok' fs' h).2.2.1

/-- Claim C9 witness: a failing split of `video.mp4` in a directory
without `segments/` still leaves `segments/` behind. -/
theorem segments_dir_persists_on_failed_split_witness :
    ("segments" ∉ (FSState.mk ["video.mp4"] []).dirs) ∧
    "segments" ∈ (FSState.mk ["video.mp4"] ["segments"]).dirs :=
  ⟨by decide,
    segments_dir_persists_on_failed_split ⟨["video.mp4"], []⟩ ["1", "3"]
      (some ⟨1920, 1080, 125⟩) [] "video.mp4" "segments"
      "segments/video_segment" 3 false ⟨["video.mp4"], ["segments"]⟩
      (by decide) split_run_fail⟩

/-- Claim C10: when the second metadata probe of the crop flow fails, a
preset crop is not aborted — the down-scaling check is skipped and the
original preset width and height go to the engine unchanged. -/
theorem preset_probe_failure_skips_downscale (c : String) (tw th : ℤ)
    (m : VideoMetadata) (hc : c ∈ ["1", "2", "3", "4", "5"])
    (hp : (crop_options c).bind (fun rp => parsePresetDims rp.1) = some (tw, th)) :
    cropFlow ["video.mp4"] ["1", c] (some m) none =
      .engineCall "video.mp4" ("video_cropped_" ++ clean_platform_of c ++ ".mp4")
        tw th (crop_offset_x_expr tw) (crop_offset_y_expr th) := by
  fin_cases hc <;>
    (injection hp with hpair; injection hpair with h1 h2; subst h1; subst h2; rfl)

/-- Claim C10 witness: the TikTok preset 1080x1920 on a 640x480 source
with a failed second probe reaches the engine unchanged, exceeding the
source dimensions. -/
theorem preset_probe_failure_skips_downscale_witness :
    (("1" : String) ∈ ["1", "2", "3", "4", "5"] ∧
      (crop_options "1").bind (fun rp => parsePresetDims rp.1) =
        some (1080, 1920)) ∧
    cropFlow ["video.mp4"] ["1", "1"] (some ⟨640, 480, 10⟩) none =
      .engineCall "video.mp4" ("video_cropped_" ++ clean_platform_of "1" ++ ".mp4")
        1080 1920 (crop_offset_x_expr 1080) (crop_offset_y_expr 1920) :=
  ⟨⟨by decide, by decide⟩,
    preset_probe_failure_skips_downscale "1" 1080 1920 ⟨640, 480, 10⟩
      (by decide) (by decide)⟩

end VideoTool
